import Mathlib

/-!
Verification of the canary-router request-routing engine
(`canaryrouter/server.go`) against its specification.

The Go code is shallowly embedded: each Go function that the claims touch
becomes a Lean definition of the same name, with HTTP plumbing replaced by
explicit data.  Machine integers are modelled as `Nat` (no arithmetic here
ever overflows: status codes and quota counts are small and only ever
compared or decremented).  The juju `ratelimit.Bucket` is created with an
(effectively) infinite refill interval, so over the process lifetime it is
a plain counter that only `TakeAvailable(1)` can change; it is modelled as
an `Option Nat` (`none` = no bucket configured, i.e. unlimited).
-/

namespace CanaryRouter

/-- Go: `StatusSidecarError = http.StatusServiceUnavailable` — the reserved
status code meaning the sidecar call itself failed. -/
def StatusSidecarError : Nat := 503

/-- The two routing targets (`serveMain` / `serveCanary`). -/
inductive Target where
  | main
  | canary
  deriving DecidableEq, BEq, Repr

/-- A request body as the router can observe it: the bytes the inbound
stream delivers, followed either by EOF (`readErr = none`) or by a read
error with message `e` (`readErr = some e`).  Bytes that a failing client
never delivered are not part of `data`. -/
structure Body where
  data : List UInt8
  readErr : Option String
  deriving DecidableEq, Repr

/-- An inbound request, reduced to the fields the routing engine reads:
the `X-Canary` header value (Go's `Header.Get` yields `""` when the header
is absent) and the body stream. -/
structure Request where
  xCanary : String
  body : Body
  deriving DecidableEq, Repr

/-- What the sidecar reverse proxy does for one request: either the
decision service answers with a status code and body, or the transport
fails with an error message before any response is captured. -/
inductive SidecarTransport where
  | ok (code : Nat) (body : String)
  | transportError (msg : String)
  deriving DecidableEq, Repr

/-- The (code, body) pair captured by the `httptest` recorder.  On a
transport failure the sidecar proxy's `ErrorHandler` (installed in
`NewServer`) writes `StatusSidecarError` and the error text as body. -/
def sidecarObserved : SidecarTransport → Nat × String
  | SidecarTransport.ok code body => (code, body)
  | SidecarTransport.transportError msg => (StatusSidecarError, msg)

/-- Go `convertToBool`: accepts exactly `"true"` and `"false"`
(then `strconv.ParseBool` maps them to `true`/`false`); every other
string is an error. -/
def convertToBool (boolStr : String) : Except String Bool :=
  if boolStr = "true" then Except.ok true
  else if boolStr = "false" then Except.ok false
  else Except.error "neither true nor false"

/-- Go `callSidecar`: tees the request body into a buffer, replays it to
the sidecar proxy against an in-memory recorder, and — via `defer`,
i.e. on every exit path — restores `req.Body` to a fresh reader over the
buffered bytes.  Returns the restored body together with the captured
status code, or an error (the read error, or the recorder body when the
recorder code is `StatusSidecarError`). -/
def callSidecar (b : Body) (side : SidecarTransport) : Body × Except String Nat :=
  let restored : Body := { data := b.data, readErr := none }
  match b.readErr with
  | some e => (restored, Except.error e)
  | none =>
    let obs := sidecarObserved side
    if obs.1 = StatusSidecarError then (restored, Except.error obs.2)
    else (restored, Except.ok obs.1)

/-- Go `Server.IsCanaryLimited`: whether a canary bucket was configured. -/
def IsCanaryLimited (bucket : Option Nat) : Bool := bucket.isSome

/-- Go `canaryBucket.Available()` (only called when the bucket exists). -/
def bucketAvailable : Option Nat → Nat
  | some a => a
  | none => 0

/-- Go `canaryBucket.TakeAvailable(1)` on a bucket holding `a` tokens:
atomically takes one token iff one is available; returns the number of
tokens taken and the new token count. -/
def admitStep (a : Nat) : Nat × Nat :=
  if 0 < a then (1, a - 1) else (0, a)

/-- The quota interaction of the canary branch of `viaProxyWithSidecar`:
when no bucket is configured the `&&` short-circuits and admission
trivially succeeds; otherwise `TakeAvailable(1)` runs.  Returns whether
the request was admitted and the bucket afterwards. -/
def canaryAdmission : Option Nat → Bool × Option Nat
  | none => (true, none)
  | some a =>
    let r := admitStep a
    (r.1 != 0, some r.2)

/-- Concurrent interference on the shared bucket: `steal` is the number of
tokens taken by concurrently admitted requests between this request's
`Available()` pre-check and its `TakeAvailable(1)` call.  Other requests
only ever take tokens (the bucket never refills), so interference can only
lower the count (`Nat` subtraction stops at zero). -/
def interfere (steal : Nat) : Option Nat → Option Nat
  | none => none
  | some a => some (a - steal)

/-- The result of handling one request: chosen target, the routing reason
tagged on the request context (`none` when no reason was set), whether the
sidecar was consulted, and the body the chosen backend proxy will read. -/
structure Outcome where
  target : Target
  reason : Option String
  sidecarCalled : Bool
  bodyAfter : Body
  deriving DecidableEq, Repr

/-- Go `viaProxyWithSidecar` handler for one request: the bucket argument
is the shared bucket's state at the `Available()` pre-check, `steal` the
interference before `TakeAvailable(1)` (see `interfere`).  Returns the
outcome and the bucket state after this request's quota interaction. -/
def viaProxyWithSidecar (cm cc : Nat) (bucket : Option Nat) (steal : Nat)
    (b : Body) (side : SidecarTransport) : Outcome × Option Nat :=
  if IsCanaryLimited bucket && bucketAvailable bucket == 0 then
    ({ target := Target.main, reason := some "Canary limit reached",
       sidecarCalled := false, bodyAfter := b }, bucket)
  else
    let r := callSidecar b side
    match r.2 with
    | Except.error e =>
      ({ target := Target.main, reason := some e,
         sidecarCalled := true, bodyAfter := r.1 }, bucket)
    | Except.ok code =>
      if code = cm then
        ({ target := Target.main,
           reason := some ("Sidecar returns status code " ++ toString code),
           sidecarCalled := true, bodyAfter := r.1 }, bucket)
      else if code = cc then
        let adm := canaryAdmission (interfere steal bucket)
        if adm.1 then
          ({ target := Target.canary,
             reason := some ("Sidecar returns status code " ++ toString code),
             sidecarCalled := true, bodyAfter := r.1 }, adm.2)
        else
          ({ target := Target.main,
             reason := some ("Sidecar returns status code " ++ toString code
               ++ ", but canary limit reached"),
             sidecarCalled := true, bodyAfter := r.1 }, adm.2)
      else
        ({ target := Target.main,
           reason := some ("Sidecar returns non standard status code " ++ toString code),
           sidecarCalled := true, bodyAfter := r.1 }, bucket)

/-- The `handlerFunc` chosen in `viaProxy` before the override check:
`serveMain` when no sidecar URL is configured, else `viaProxyWithSidecar`.
`serveMain` sets no routing reason and touches neither bucket nor body. -/
def handlerWithoutOverride (cm cc : Nat) (url : String) (bucket : Option Nat)
    (steal : Nat) (req : Request) (side : SidecarTransport) : Outcome × Option Nat :=
  if url = "" then
    ({ target := Target.main, reason := none,
       sidecarCalled := false, bodyAfter := req.body }, bucket)
  else
    viaProxyWithSidecar cm cc bucket steal req.body side

/-- Go `viaProxy` handler (inside the recover guard, after path
normalization): reads the `X-Canary` header; value exactly `"true"` routes
to canary and `"false"` to main, both tagging the header reason and
returning before any quota or sidecar interaction; any other value falls
through to `handlerWithoutOverride`. -/
def viaProxy (cm cc : Nat) (url : String) (bucket : Option Nat) (steal : Nat)
    (req : Request) (side : SidecarTransport) : Outcome × Option Nat :=
  match convertToBool req.xCanary with
  | Except.ok true =>
    ({ target := Target.canary,
       reason := some ("Routed via X-Canary header value: " ++ req.xCanary),
       sidecarCalled := false, bodyAfter := req.body }, bucket)
  | Except.ok false =>
    ({ target := Target.main,
       reason := some ("Routed via X-Canary header value: " ++ req.xCanary),
       sidecarCalled := false, bodyAfter := req.body }, bucket)
  | Except.error _ => handlerWithoutOverride cm cc url bucket steal req side

/-- Go `NewServer` quota construction: a bucket of capacity
`RequestLimitCanary` is created iff that configuration value is nonzero. -/
def mkCanaryBucket (requestLimitCanary : Nat) : Option Nat :=
  if requestLimitCanary ≠ 0 then some requestLimitCanary else none

/-- One atomic access to the shared bucket: `read` is `Available()`
(mutates nothing), `take` is `TakeAvailable(1)`. -/
inductive QuotaOp where
  | read
  | take
  deriving DecidableEq, Repr

/-- Serialization of an arbitrary interleaving of atomic bucket accesses
(the bucket's own mutex serializes them): returns the number of
successful takes and the final token count. -/
def quotaRun : Nat → List QuotaOp → Nat × Nat
  | a, [] => (0, a)
  | a, QuotaOp.read :: ops => quotaRun a ops
  | a, QuotaOp.take :: ops =>
    let r := admitStep a
    let rest := quotaRun r.2 ops
    (r.1 + rest.1, rest.2)

/-- A serial trace of requests through `viaProxy`, threading the bucket. -/
def runServer (cm cc : Nat) (url : String) :
    Option Nat → List (Request × SidecarTransport) → List Outcome × Option Nat
  | bucket, [] => ([], bucket)
  | bucket, (req, side) :: rest =>
    let r := viaProxy cm cc url bucket 0 req side
    let rs := runServer cm cc url r.2 rest
    (r.1 :: rs.1, rs.2)

/-- Number of requests of a trace dispatched to the canary backend. -/
def countCanary (os : List Outcome) : Nat :=
  (os.filter (fun o => o.target == Target.canary)).length

/-- A Go panic value as the recover guard's type switch sees it:
a string, an `error`, or anything else (kept as its printed form). -/
inductive PanicVal where
  | str (s : String)
  | err (msg : String)
  | other (desc : String)
  deriving DecidableEq, Repr

/-- The error text the guard builds from a recovered value
(`errors.New(t)` / `t` itself / `"Unknown error: %v"`). -/
def describePanic : PanicVal → String
  | PanicVal.str s => s
  | PanicVal.err msg => msg
  | PanicVal.other desc => "Unknown error: " ++ desc

/-- Result of the per-request pipeline body inside the guard: either it
completed normally with a routing outcome, or it panicked. -/
inductive PipelineResult where
  | normal (o : Outcome)
  | panicked (p : PanicVal)
  deriving DecidableEq, Repr

/-- What the client-facing handler produces: a routed (proxied) response,
or an error response written directly (status and body). -/
inductive HandlerResult where
  | routed (o : Outcome)
  | errorResponse (status : Nat) (respBody : String)
  deriving DecidableEq, Repr

/-- The recover guard wrapping the pipeline in `viaProxy`: a normal result
passes through; a panic is recovered and answered with
`http.Error(w, err.Error(), 500)`, which writes the message and a
trailing newline.  The guard always returns — the process survives. -/
def viaProxyGuarded : PipelineResult → HandlerResult
  | PipelineResult.normal o => HandlerResult.routed o
  | PipelineResult.panicked p =>
    HandlerResult.errorResponse 500 (describePanic p ++ "\n")

/-- ASCII lower-casing of one character code (used only to formalise the
spec's quoted reason phrases case-insensitively). -/
def lowerCode (n : Nat) : Nat :=
  if 65 ≤ n ∧ n ≤ 90 then n + 32 else n

/-- The character codes of a string, lower-cased. -/
def lowerCodes (s : String) : List Nat :=
  s.toList.map (fun c => lowerCode c.toNat)

/-- Whether `ys` occurs at the start of `xs`. -/
def codesStartWith : List Nat → List Nat → Bool
  | _, [] => true
  | [], _ :: _ => false
  | x :: xs, y :: ys => x == y && codesStartWith xs ys

/-- Whether `ys` occurs contiguously anywhere in `xs`. -/
def codesContain : List Nat → List Nat → Bool
  | [], ys => codesStartWith [] ys
  | x :: xs, ys => codesStartWith (x :: xs) ys || codesContain xs ys

/-- Formalisation of the spec saying a routing reason "is"/"contains" a
quoted phrase: the phrase occurs in the reason, case-insensitively. -/
def reasonMentions (s phrase : String) : Bool :=
  codesContain (lowerCodes s) (lowerCodes phrase)

/-- The restored body `callSidecar` leaves on the request is always a fresh
error-free reader over exactly the bytes the inbound stream delivered. -/
theorem callSidecar_fst (b : Body) (side : SidecarTransport) :
    (callSidecar b side).1 = { data := b.data, readErr := none } := by
  obtain ⟨d, e⟩ := b
  cases e with
  | none =>
    simp only [callSidecar]
    split <;> rfl
  | some msg => rfl

/-- Over any serialized interleaving of atomic bucket accesses, the final
token count plus the number of successful takes equals the initial count:
reads and failed takes change nothing, successful takes decrement by one. -/
theorem quotaRun_sum (ops : List QuotaOp) :
    ∀ a : Nat, (quotaRun a ops).2 + (quotaRun a ops).1 = a := by
  induction ops with
  | nil => intro a; simp [quotaRun]
  | cons op ops ih =>
    intro a
    cases op with
    | read => simpa [quotaRun] using ih a
    | take =>
      have h := ih (admitStep a).2
      by_cases hpos : 0 < a
      · simp only [quotaRun, admitStep, if_pos hpos] at h ⊢
        omega
      · simp only [quotaRun, admitStep, if_neg hpos] at h ⊢
        omega

/-- A canary dispatch out of `viaProxyWithSidecar` with a configured bucket
can only happen through a successful `TakeAvailable(1)`: the count seen at
admission was positive and the request consumed exactly one token. -/
theorem viaProxyWithSidecar_canary (cm cc a steal : Nat) (b : Body)
    (side : SidecarTransport)
    (h : (viaProxyWithSidecar cm cc (some a) steal b side).1.target = Target.canary) :
    0 < a - steal ∧
    (viaProxyWithSidecar cm cc (some a) steal b side).2 = some (a - steal - 1) := by
  by_cases hpos : 0 < a - steal
  · refine ⟨hpos, ?_⟩
    simp only [viaProxyWithSidecar, canaryAdmission, interfere, admitStep,
      if_pos hpos] at h ⊢
    split at h
    · simp at h
    · split at h <;> split_ifs at h ⊢ <;> simp_all
  · exfalso
    simp only [viaProxyWithSidecar, canaryAdmission, interfere, admitStep,
      if_neg hpos] at h
    split at h
    · simp at h
    · split at h
      · simp at h
      · split_ifs at h <;> simp_all

/-- C2: a request whose `X-Canary` header is exactly `"true"` routes to
canary and exactly `"false"` routes to main, in both cases tagging the
header-override reason, leaving the quota untouched and never consulting
the sidecar; any other header value (absent reads as `""`) falls through
to the normal handler (`handlerWithoutOverride`). -/
theorem header_override_routing (cm cc : Nat) (url : String) (bucket : Option Nat)
    (steal : Nat) (b : Body) (side : SidecarTransport) (v : String)
    (hv1 : v ≠ "true") (hv2 : v ≠ "false") :
    viaProxy cm cc url bucket steal { xCanary := "true", body := b } side =
      ({ target := Target.canary,
         reason := some "Routed via X-Canary header value: true",
         sidecarCalled := false, bodyAfter := b }, bucket) ∧
    viaProxy cm cc url bucket steal { xCanary := "false", body := b } side =
      ({ target := Target.main,
         reason := some "Routed via X-Canary header value: false",
         sidecarCalled := false, bodyAfter := b }, bucket) ∧
    viaProxy cm cc url bucket steal { xCanary := v, body := b } side =
      handlerWithoutOverride cm cc url bucket steal { xCanary := v, body := b } side := by
  refine ⟨rfl, rfl, ?_⟩
  simp [viaProxy, convertToBool, hv1, hv2]

/-- Witness for C2 at concrete inputs, with the malformed value `"TRUE"`. -/
theorem header_override_routing_witness :
    viaProxy 200 300 "sidecar" (some 3) 0
        { xCanary := "true", body := { data := [7], readErr := none } }
        (SidecarTransport.transportError "t") =
      ({ target := Target.canary,
         reason := some "Routed via X-Canary header value: true",
         sidecarCalled := false, bodyAfter := { data := [7], readErr := none } }, some 3) ∧
    viaProxy 200 300 "sidecar" (some 3) 0
        { xCanary := "false", body := { data := [7], readErr := none } }
        (SidecarTransport.transportError "t") =
      ({ target := Target.main,
         reason := some "Routed via X-Canary header value: false",
         sidecarCalled := false, bodyAfter := { data := [7], readErr := none } }, some 3) ∧
    viaProxy 200 300 "sidecar" (some 3) 0
        { xCanary := "TRUE", body := { data := [7], readErr := none } }
        (SidecarTransport.transportError "t") =
      handlerWithoutOverride 200 300 "sidecar" (some 3) 0
        { xCanary := "TRUE", body := { data := [7], readErr := none } }
        (SidecarTransport.transportError "t") :=
  header_override_routing 200 300 "sidecar" (some 3) 0
    { data := [7], readErr := none } (SidecarTransport.transportError "t")
    "TRUE" (by decide) (by decide)

/-- C5: on every exit path of the decision-service call — service success,
service-reported error, transport failure, or body read error — the
request body is restored to a fresh error-free reader over exactly the
bytes the client's stream delivered, so the backend ultimately chosen
reads a body byte-identical to the one the client sent. -/
theorem body_restored (cm cc steal : Nat) (bucket : Option Nat) (b : Body)
    (side : SidecarTransport) :
    (callSidecar b side).1.data = b.data ∧
    (callSidecar b side).1.readErr = none ∧
    (viaProxyWithSidecar cm cc bucket steal b side).1.bodyAfter.data = b.data := by
  refine ⟨by simp [callSidecar_fst], by simp [callSidecar_fst], ?_⟩
  simp only [viaProxyWithSidecar]
  split
  · rfl
  · split
    · simp [callSidecar_fst]
    · split_ifs <;> simp [callSidecar_fst]

/-- C7: the recover guard in `viaProxy` turns any panic value raised in
the per-request pipeline into a 500 response whose body is the fault's
description (plus the newline `http.Error` appends), and passes normal
results through unchanged — the guard always returns a `HandlerResult`,
so a per-request fault never unwinds further. -/
theorem panic_guard_recovers (p : PanicVal) (o : Outcome) :
    viaProxyGuarded (PipelineResult.panicked p) =
      HandlerResult.errorResponse 500 (describePanic p ++ "\n") ∧
    viaProxyGuarded (PipelineResult.normal o) = HandlerResult.routed o :=
  ⟨rfl, rfl⟩

/-- C9: with no sidecar URL configured, every request without a valid
`X-Canary` override routes to main. -/
theorem no_sidecar_routes_main (cm cc steal : Nat) (bucket : Option Nat)
    (req : Request) (side : SidecarTransport)
    (h1 : req.xCanary ≠ "true") (h2 : req.xCanary ≠ "false") :
    (viaProxy cm cc "" bucket steal req side).1.target = Target.main := by
  simp [viaProxy, convertToBool, h1, h2, handlerWithoutOverride]

/-- Witness for C9 with an absent header (`Header.Get` yields `""`). -/
theorem no_sidecar_routes_main_witness :
    (viaProxy 200 300 "" (some 3) 0
      { xCanary := "", body := { data := [], readErr := none } }
      (SidecarTransport.ok 300 "x")).1.target = Target.main :=
  no_sidecar_routes_main 200 300 0 (some 3)
    { xCanary := "", body := { data := [], readErr := none } }
    (SidecarTransport.ok 300 "x") (by decide) (by decide)

/-- C10: an `X-Canary: true` override dispatches to canary while leaving
the bucket untouched and skipping the sidecar, so overridden canary
traffic is not counted against the capacity: concretely, with capacity 1
a decision-routed request plus an overridden request give 2 canary
dispatches. -/
theorem override_bypasses_quota (cm cc steal : Nat) (url : String)
    (bucket : Option Nat) (b : Body) (side : SidecarTransport) :
    viaProxy cm cc url bucket steal { xCanary := "true", body := b } side =
      ({ target := Target.canary,
         reason := some "Routed via X-Canary header value: true",
         sidecarCalled := false, bodyAfter := b }, bucket) ∧
    mkCanaryBucket 1 = some 1 ∧
    countCanary (runServer 200 300 "sidecar" (mkCanaryBucket 1)
      [({ xCanary := "", body := { data := [], readErr := none } },
        SidecarTransport.ok 300 ""),
       ({ xCanary := "true", body := { data := [], readErr := none } },
        SidecarTransport.ok 300 "")]).1 = 2 :=
  ⟨rfl, by decide, by decide⟩

/-- C1: with a bucket of capacity N, over any interleaving of atomic
bucket accesses (each `Available()` read or `TakeAvailable(1)` serialized
by the bucket), at most N takes ever succeed, the remaining count plus the
successes always equals N (so the counter stays ≥ 0 and is never
incremented), a take decrements by exactly one iff the count is positive
(`admitStep`), and a decision-path canary dispatch with a configured
bucket happens only through such a successful take. -/
theorem canary_quota_bound (N : Nat) (ops : List QuotaOp) (cm cc a steal : Nat)
    (b : Body) (side : SidecarTransport)
    (hout : (viaProxyWithSidecar cm cc (some a) steal b side).1.target = Target.canary) :
    (quotaRun N ops).1 ≤ N ∧
    (quotaRun N ops).2 + (quotaRun N ops).1 = N ∧
    (quotaRun N ops).2 ≤ N ∧
    0 < a - steal ∧
    admitStep (a - steal) = (1, a - steal - 1) ∧
    admitStep 0 = (0, 0) ∧
    (viaProxyWithSidecar cm cc (some a) steal b side).2 = some (a - steal - 1) := by
  have hsum := quotaRun_sum ops N
  have hc := viaProxyWithSidecar_canary cm cc a steal b side hout
  refine ⟨by omega, hsum, by omega, hc.1, ?_, by decide, hc.2⟩
  simp [admitStep, hc.1]

/-- Witness for C1 at a concrete interleaving and a concrete admitted
request. -/
theorem canary_quota_bound_witness :
    (quotaRun 2 [QuotaOp.take, QuotaOp.read, QuotaOp.take, QuotaOp.take]).1 ≤ 2 ∧
    (quotaRun 2 [QuotaOp.take, QuotaOp.read, QuotaOp.take, QuotaOp.take]).2 +
      (quotaRun 2 [QuotaOp.take, QuotaOp.read, QuotaOp.take, QuotaOp.take]).1 = 2 ∧
    (quotaRun 2 [QuotaOp.take, QuotaOp.read, QuotaOp.take, QuotaOp.take]).2 ≤ 2 ∧
    0 < 5 - 1 ∧
    admitStep (5 - 1) = (1, 5 - 1 - 1) ∧
    admitStep 0 = (0, 0) ∧
    (viaProxyWithSidecar 200 300 (some 5) 1 { data := [], readErr := none }
      (SidecarTransport.ok 300 "ok")).2 = some (5 - 1 - 1) :=
  canary_quota_bound 2 [QuotaOp.take, QuotaOp.read, QuotaOp.take, QuotaOp.take]
    200 300 5 1 { data := [], readErr := none }
    (SidecarTransport.ok 300 "ok") (by decide)

/-- C3 counterexample: with capacity 1 and one token stolen by a
concurrent request between pre-check and admission, the decision service
directs to canary, admission fails and the request routes to main — but
the routing reason is "Sidecar returns status code 300, but canary limit
reached", which does not contain the claimed phrase "limit reached after
decision" (even case-insensitively). -/
theorem quota_race_reason_counterexample :
    (viaProxyWithSidecar 200 300 (some 1) 1 { data := [], readErr := none }
      (SidecarTransport.ok 300 "")).1.target = Target.main ∧
    (viaProxyWithSidecar 200 300 (some 1) 1 { data := [], readErr := none }
      (SidecarTransport.ok 300 "")).1.reason =
      some "Sidecar returns status code 300, but canary limit reached" ∧
    reasonMentions "Sidecar returns status code 300, but canary limit reached"
      "limit reached after decision" = false :=
  ⟨by decide, by decide, by decide⟩

/-- C3 as amended: when the decision service directs to canary (status
`cc`, distinct from the main and sidecar-error codes, body readable) and a
bucket of positive count `a` passed the pre-check, then if concurrent
takes exhausted the bucket before `TakeAvailable(1)` the request routes to
main with reason "Sidecar returns status code `cc`, but canary limit
reached"; if a token is still available admission succeeds and the request
routes to canary; with no bucket configured it routes to canary. -/
theorem quota_race_admission (cm cc a steal : Nat) (b : Body) (sbody : String)
    (hb : b.readErr = none) (hcm : cc ≠ cm) (h503 : cc ≠ StatusSidecarError)
    (ha : 0 < a) :
    (a - steal = 0 →
      (viaProxyWithSidecar cm cc (some a) steal b
        (SidecarTransport.ok cc sbody)).1.target = Target.main ∧
      (viaProxyWithSidecar cm cc (some a) steal b
        (SidecarTransport.ok cc sbody)).1.reason =
        some ("Sidecar returns status code " ++ toString cc
          ++ ", but canary limit reached")) ∧
    (0 < a - steal →
      (viaProxyWithSidecar cm cc (some a) steal b
        (SidecarTransport.ok cc sbody)).1.target = Target.canary ∧
      (viaProxyWithSidecar cm cc (some a) steal b
        (SidecarTransport.ok cc sbody)).2 = some (a - steal - 1)) ∧
    (viaProxyWithSidecar cm cc none steal b
      (SidecarTransport.ok cc sbody)).1.target = Target.canary := by
  have ha0 : ¬a = 0 := by omega
  refine ⟨?_, ?_, ?_⟩
  · intro hsteal
    constructor <;>
      simp [viaProxyWithSidecar, IsCanaryLimited, bucketAvailable, ha0,
        callSidecar, hb, sidecarObserved, h503, hcm, canaryAdmission,
        interfere, admitStep, hsteal]
  · intro hsteal
    constructor <;>
      simp [viaProxyWithSidecar, IsCanaryLimited, bucketAvailable, ha0,
        callSidecar, hb, sidecarObserved, h503, hcm, canaryAdmission,
        interfere, admitStep, hsteal]
  · simp [viaProxyWithSidecar, IsCanaryLimited, bucketAvailable,
      callSidecar, hb, sidecarObserved, h503, hcm, canaryAdmission, interfere]

/-- Witness for the amended C3: the race-exhausted case and the
no-bucket case at concrete inputs. -/
theorem quota_race_admission_witness :
    ((viaProxyWithSidecar 200 300 (some 1) 1 { data := [], readErr := none }
        (SidecarTransport.ok 300 "x")).1.target = Target.main ∧
      (viaProxyWithSidecar 200 300 (some 1) 1 { data := [], readErr := none }
        (SidecarTransport.ok 300 "x")).1.reason =
        some ("Sidecar returns status code " ++ toString 300
          ++ ", but canary limit reached")) ∧
    (viaProxyWithSidecar 200 300 none 1 { data := [], readErr := none }
      (SidecarTransport.ok 300 "x")).1.target = Target.canary := by
  have h := quota_race_admission 200 300 1 1 { data := [], readErr := none }
    "x" rfl (by decide) (by decide) (by decide)
  exact ⟨h.1 (by decide), h.2.2⟩

/-- C4: whenever the captured sidecar response carries the reserved
sidecar-error status — returned by the decision service itself or
synthesized by the sidecar proxy's error handler on a transport failure —
the request routes to main, the captured body text becomes the routing
reason, the bucket is untouched, and the guard hands the client the
routed (main) response rather than an error response. -/
theorem sidecar_error_falls_back (cm cc steal : Nat) (bucket : Option Nat)
    (b : Body) (side : SidecarTransport)
    (hb : b.readErr = none)
    (h503 : (sidecarObserved side).1 = StatusSidecarError)
    (hpre : (IsCanaryLimited bucket && bucketAvailable bucket == 0) = false) :
    (viaProxyWithSidecar cm cc bucket steal b side).1.target = Target.main ∧
    (viaProxyWithSidecar cm cc bucket steal b side).1.reason =
      some (sidecarObserved side).2 ∧
    (viaProxyWithSidecar cm cc bucket steal b side).1.sidecarCalled = true ∧
    (viaProxyWithSidecar cm cc bucket steal b side).2 = bucket ∧
    viaProxyGuarded (PipelineResult.normal
        (viaProxyWithSidecar cm cc bucket steal b side).1) =
      HandlerResult.routed (viaProxyWithSidecar cm cc bucket steal b side).1 := by
  refine ⟨?_, ?_, ?_, ?_, rfl⟩ <;>
    simp [viaProxyWithSidecar, hpre, callSidecar, hb, h503]

/-- Witness for C4: a transport failure whose error text is `"timeout"`
(the spec scenario) against a non-exhausted bucket. -/
theorem sidecar_error_falls_back_witness :
    (viaProxyWithSidecar 200 300 (some 2) 0 { data := [], readErr := none }
      (SidecarTransport.transportError "timeout")).1.target = Target.main ∧
    (viaProxyWithSidecar 200 300 (some 2) 0 { data := [], readErr := none }
      (SidecarTransport.transportError "timeout")).1.reason =
      some (sidecarObserved (SidecarTransport.transportError "timeout")).2 ∧
    (viaProxyWithSidecar 200 300 (some 2) 0 { data := [], readErr := none }
      (SidecarTransport.transportError "timeout")).1.sidecarCalled = true ∧
    (viaProxyWithSidecar 200 300 (some 2) 0 { data := [], readErr := none }
      (SidecarTransport.transportError "timeout")).2 = some 2 ∧
    viaProxyGuarded (PipelineResult.normal
        (viaProxyWithSidecar 200 300 (some 2) 0 { data := [], readErr := none }
          (SidecarTransport.transportError "timeout")).1) =
      HandlerResult.routed
        (viaProxyWithSidecar 200 300 (some 2) 0 { data := [], readErr := none }
          (SidecarTransport.transportError "timeout")).1 :=
  sidecar_error_falls_back 200 300 0 (some 2) { data := [], readErr := none }
    (SidecarTransport.transportError "timeout") rfl (by decide) (by decide)

/-- C6: with a sidecar configured, a bucket configured and exhausted at
request entry, and no valid override header, the request routes to main
with reason "Canary limit reached" (which matches the spec's quoted
"canary limit reached" case-insensitively), the sidecar is never
consulted, and the bucket is untouched. -/
theorem quota_exhausted_short_circuit (cm cc steal : Nat) (url : String)
    (req : Request) (side : SidecarTransport)
    (hurl : url ≠ "") (h1 : req.xCanary ≠ "true") (h2 : req.xCanary ≠ "false") :
    (viaProxy cm cc url (some 0) steal req side).1.target = Target.main ∧
    (viaProxy cm cc url (some 0) steal req side).1.reason =
      some "Canary limit reached" ∧
    reasonMentions "Canary limit reached" "canary limit reached" = true ∧
    (viaProxy cm cc url (some 0) steal req side).1.sidecarCalled = false ∧
    (viaProxy cm cc url (some 0) steal req side).2 = some 0 := by
  refine ⟨?_, ?_, by decide, ?_, ?_⟩ <;>
    simp [viaProxy, convertToBool, h1, h2, handlerWithoutOverride, hurl,
      viaProxyWithSidecar, IsCanaryLimited, bucketAvailable]

/-- Witness for C6 at concrete inputs with an absent header. -/
theorem quota_exhausted_short_circuit_witness :
    (viaProxy 200 300 "sidecar" (some 0) 0
      { xCanary := "", body := { data := [], readErr := none } }
      (SidecarTransport.ok 300 "x")).1.target = Target.main ∧
    (viaProxy 200 300 "sidecar" (some 0) 0
      { xCanary := "", body := { data := [], readErr := none } }
      (SidecarTransport.ok 300 "x")).1.reason = some "Canary limit reached" ∧
    reasonMentions "Canary limit reached" "canary limit reached" = true ∧
    (viaProxy 200 300 "sidecar" (some 0) 0
      { xCanary := "", body := { data := [], readErr := none } }
      (SidecarTransport.ok 300 "x")).1.sidecarCalled = false ∧
    (viaProxy 200 300 "sidecar" (some 0) 0
      { xCanary := "", body := { data := [], readErr := none } }
      (SidecarTransport.ok 300 "x")).2 = some 0 :=
  quota_exhausted_short_circuit 200 300 0 "sidecar"
    { xCanary := "", body := { data := [], readErr := none } }
    (SidecarTransport.ok 300 "x") (by decide) (by decide) (by decide)

/-- C8: a captured decision-service status equal to the configured main
code routes to main with the observed code in the reason; a status that is
neither the main code, the canary code, nor the reserved sidecar-error
code routes to main with a reason noting the non-standard code. -/
theorem sidecar_status_mapping (cm cc code steal : Nat) (bucket : Option Nat)
    (b : Body) (sbody : String)
    (hb : b.readErr = none)
    (hpre : (IsCanaryLimited bucket && bucketAvailable bucket == 0) = false)
    (h503 : code ≠ StatusSidecarError) :
    (code = cm →
      (viaProxyWithSidecar cm cc bucket steal b
        (SidecarTransport.ok code sbody)).1.target = Target.main ∧
      (viaProxyWithSidecar cm cc bucket steal b
        (SidecarTransport.ok code sbody)).1.reason =
        some ("Sidecar returns status code " ++ toString code)) ∧
    (code ≠ cm → code ≠ cc →
      (viaProxyWithSidecar cm cc bucket steal b
        (SidecarTransport.ok code sbody)).1.target = Target.main ∧
      (viaProxyWithSidecar cm cc bucket steal b
        (SidecarTransport.ok code sbody)).1.reason =
        some ("Sidecar returns non standard status code " ++ toString code)) := by
  constructor
  · intro hm
    subst hm
    constructor <;>
      simp [viaProxyWithSidecar, hpre, callSidecar, hb, sidecarObserved, h503]
  · intro hm hc
    constructor <;>
      simp [viaProxyWithSidecar, hpre, callSidecar, hb, sidecarObserved, h503, hm, hc]

/-- Witness for C8: the main code and a non-standard code at concrete
inputs. -/
theorem sidecar_status_mapping_witness :
    ((viaProxyWithSidecar 200 300 (some 2) 0 { data := [], readErr := none }
        (SidecarTransport.ok 200 "s")).1.target = Target.main ∧
      (viaProxyWithSidecar 200 300 (some 2) 0 { data := [], readErr := none }
        (SidecarTransport.ok 200 "s")).1.reason =
        some ("Sidecar returns status code " ++ toString 200)) ∧
    ((viaProxyWithSidecar 200 300 (some 2) 0 { data := [], readErr := none }
        (SidecarTransport.ok 999 "s")).1.target = Target.main ∧
      (viaProxyWithSidecar 200 300 (some 2) 0 { data := [], readErr := none }
        (SidecarTransport.ok 999 "s")).1.reason =
        some ("Sidecar returns non standard status code " ++ toString 999)) := by
  have g1 := sidecar_status_mapping 200 300 200 0 (some 2)
    { data := [], readErr := none } "s" rfl (by decide) (by decide)
  have g2 := sidecar_status_mapping 200 300 999 0 (some 2)
    { data := [], readErr := none } "s" rfl (by decide) (by decide)
  exact ⟨g1.1 rfl, g2.2 (by decide) (by decide)⟩

end CanaryRouter
